import Mathlib

/-!
Verification of the monument-enrichment pipeline (`monumenten/monumenten.py`).

The Python source is shallowly embedded below.  Pure helpers become Lean
functions; the asynchronous pieces are modelled by explicit response
sequences (`Nat → _`, attempt index ↦ simulated response of the external
service), the `asyncio.Queue` by a producer/consumer step relation, and the
two `while`/`for` retry loops by structural recursion on the number of
remaining attempts.  Python dicts are modelled as `String → Option String`
built by left folds, so that later insertions of the same key overwrite
earlier ones, exactly as in CPython.
-/

/-! ### Adressen en de fallback-resolver (`vergelijk_adressen`,
`vind_alternatieve_verblijfsobjecten`, regels 116-241) -/

/-- Model of the `nummeraanduiding` JSON sub-object.  The code indexes
`adres["postcode"]` and `adres["huisnummer"]` directly (presence assumed),
while `huisletter` is read with `.get`, i.e. it may be absent (`none`). -/
structure Adres where
  postcode : String
  huisnummer : String
  huisletter : Option String
deriving DecidableEq, Repr

/-- Embedding of `vergelijk_adressen` (lines 116-121): equality of postcode,
of huisnummer and of the raw `.get("huisletter")` values (`None` is only
equal to `None`, not to the empty string). -/
def vergelijk_adressen (adres1 adres2 : Adres) : Bool :=
  adres1.postcode == adres2.postcode
    && adres1.huisnummer == adres2.huisnummer
    && adres1.huisletter == adres2.huisletter

/-- Definition following the SPEC's words (§4.5 step 4): house-letter
compared after normalising an absent letter to the empty string.  Kept only
to compare against the code's `vergelijk_adressen`. -/
def vergelijk_adressen_volgens_spec (adres1 adres2 : Adres) : Bool :=
  adres1.postcode == adres2.postcode
    && adres1.huisnummer == adres2.huisnummer
    && adres1.huisletter.getD "" == adres2.huisletter.getD ""

/-- Model of one element of `_embedded.verblijfsobjecten`: the unit record
with its `identificatie`, `status` and main address. -/
structure Verblijfsobject where
  identificatie : String
  status : String
  adres : Adres
deriving DecidableEq, Repr

/-- Record yielded by `vind_alternatieve_verblijfsobjecten` (lines 223-232). -/
structure FallbackResultaat where
  origineel_verblijfsobject_id : String
  alternatief_verblijfsobject_id : String
  status : String
  postcode : String
  huisnummer : String
  huisletter : String
deriving DecidableEq, Repr

/-- The dictionary yielded for one accepted alternative (lines 223-232);
`huisletter` is normalised by `adres.get("huisletter") or ""`. -/
def maak_fallback_resultaat (origineel : String) (vo : Verblijfsobject) :
    FallbackResultaat where
  origineel_verblijfsobject_id := origineel
  alternatief_verblijfsobject_id := vo.identificatie
  status := vo.status
  postcode := vo.adres.postcode
  huisnummer := vo.adres.huisnummer
  huisletter := vo.adres.huisletter.getD ""

/-- Embedding of the inner per-`pand` loop body of
`vind_alternatieve_verblijfsobjecten` (lines 186-237): find the original
record's address with `next(...)`, then yield every *other* record whose
address satisfies `vergelijk_adressen`.  When the original record is absent
the code logs and continues, yielding nothing for this pand. -/
def verwerk_pand (origineel : String) (verblijfsobjecten : List Verblijfsobject) :
    List FallbackResultaat :=
  match verblijfsobjecten.find? (fun vo => vo.identificatie == origineel) with
  | none => []
  | some origineel_vo =>
    (verblijfsobjecten.filter (fun vo =>
        vo.identificatie != origineel
          && vergelijk_adressen vo.adres origineel_vo.adres)).map
      (maak_fallback_resultaat origineel)

/-! ### De rate-gelimiteerde fetcher (`ophalen_met_retry`, regels 125-155) -/

/-- One simulated outcome of `sessie.get` for a given attempt: an HTTP
response (status, `RateLimit-Reset` header already parsed with default 1,
JSON body), or an `aiohttp.ClientConnectionError`. -/
inductive FetchAntwoord where
  | respons (status : Nat) (rateLimitReset : Nat) (lichaam : String)
  | verbindingsfout
deriving DecidableEq, Repr

/-- Possible results of `ophalen_met_retry`: a JSON payload, the non-fatal
`None` returned on an HTTP error status other than 429, or a raised
`Exception` carrying its message. -/
inductive FetchUitkomst where
  | data (lichaam : String)
  | geen_data (status : Nat)
  | fout (bericht : String)
deriving DecidableEq, Repr

/-- The message of the exception raised at line 153-155, with the default
`max_retries=5` interpolated. -/
def foutmelding : String :=
  "Fout opgetreden na 5 pogingen door verbindingsproblemen of rate limiting."

/-- Embedding of the `while retries < max_retries` loop of
`ophalen_met_retry` (lines 126-152).  `pogingen` is the number of requests
already issued (each non-returning iteration increments `retries`, so the
loop counter and the request index coincide); `budget` is
`max_retries - retries`, which makes the recursion structural. -/
def ophalen_lus (antwoorden : Nat → FetchAntwoord) : Nat → Nat → FetchUitkomst
  | _, 0 => .fout foutmelding
  | pogingen, budget + 1 =>
    match antwoorden pogingen with
    | .respons status _ lichaam =>
      if status == 429 then ophalen_lus antwoorden (pogingen + 1) budget
      else if status ≥ 400 then .geen_data status
      else .data lichaam
    | .verbindingsfout => ophalen_lus antwoorden (pogingen + 1) budget

/-- Embedding of `ophalen_met_retry` with its default `max_retries = 5`. -/
def ophalen_met_retry (antwoorden : Nat → FetchAntwoord) : FetchUitkomst :=
  ophalen_lus antwoorden 0 5

/-- Predicate: the simulated response is an HTTP 429. -/
def is429 : FetchAntwoord → Bool
  | .respons status _ _ => status == 429
  | _ => false

/-- Predicate: the simulated response is one of the two failure kinds the
fetcher retries on (HTTP 429 or a connection error). -/
def mislukking : FetchAntwoord → Bool
  | .respons status _ _ => status == 429
  | .verbindingsfout => true

/-! ### Python-dict model -/

/-- Semantics of building a Python dict from an ordered list of key/value
pairs (dict comprehension over a list): later pairs with an equal key
overwrite earlier ones. -/
def pythonDict (paren : List (String × String)) : String → Option String :=
  paren.foldl (fun m paar => fun k => if k = paar.1 then some paar.2 else m k)
    (fun _ => none)

/-- Semantics of Python's `dict.update`: keys of `nieuw` win over `oud`. -/
def dict_update (oud nieuw : String → Option String) : String → Option String :=
  fun k => match nieuw k with
    | some v => some v
    | none => oud k

/-- Embedding of the `IDENTIFICATIE_MAPPING.update({item[...]: item[...] for
item in fallback_resultaten})` statement (lines 395-402): fold the flattened
fallback results over the current mapping, later items overwriting earlier
ones with the same original id. -/
def werk_mapping_bij (mapping : String → Option String)
    (items : List FallbackResultaat) : String → Option String :=
  items.foldl
    (fun m item => fun k =>
      if k = item.origineel_verblijfsobject_id
      then some item.alternatief_verblijfsobject_id else m k)
    mapping

/-! ### De SPARQL-clients (`query_rijksmonumenten`,
`query_verblijfsobjecten`, regels 244-310) -/

/-- One simulated outcome of `sessie.post` + `raise_for_status` +
`response.json()` for a given attempt: an `aiohttp.ClientResponseError`
(caught by the `except` clause), a connection-level error (NOT caught), or
a JSON payload (`some` = a well-formed list of result rows, `none` = a
response that is not a list). -/
inductive SparqlAntwoord where
  | responsfout
  | verbindingsfout
  | ok (lichaam : Option (List (String × String)))
deriving DecidableEq, Repr

/-- The two exception kinds that can escape a client call. -/
inductive SparqlFout where
  | responsfout
  | verbindingsfout
deriving DecidableEq, Repr

/-- Embedding of the `for poging in range(3)` loop of
`query_rijksmonumenten` (lines 251-276).  `budget` is the number of
remaining iterations; the second component of the result is the trace of
`asyncio.sleep` durations performed, in order.  A caught
`ClientResponseError` on a non-final iteration sleeps 1 second and retries;
on the final iteration it re-raises.  A connection error is not caught and
propagates at once.  A well-formed list becomes the dict
`{entry["identificatie"]: entry["nummer"]}`; any other JSON is logged and
becomes `{}`. -/
def query_rijksmonumenten_lus (antwoorden : Nat → SparqlAntwoord) :
    Nat → Nat → Except SparqlFout (String → Option String) × List Nat
  | _, 0 => (.error .responsfout, [])
  | poging, budget + 1 =>
    match antwoorden poging with
    | .responsfout =>
      if budget = 0 then (.error .responsfout, [])
      else
        let rest := query_rijksmonumenten_lus antwoorden (poging + 1) budget
        (rest.1, 1 :: rest.2)
    | .verbindingsfout => (.error .verbindingsfout, [])
    | .ok (some regels) => (.ok (pythonDict regels), [])
    | .ok none => (.ok (fun _ => none), [])

/-- Embedding of `query_rijksmonumenten` with `retries = 3`. -/
def query_rijksmonumenten_client (antwoorden : Nat → SparqlAntwoord) :
    Except SparqlFout (String → Option String) × List Nat :=
  query_rijksmonumenten_lus antwoorden 0 3

/-- Embedding of the `for poging in range(3)` loop of
`query_verblijfsobjecten` (lines 288-310); identical retry skeleton, but a
well-formed list is returned as-is (pairs `identificatie`/WKT) and any other
JSON becomes `[]`. -/
def query_verblijfsobjecten_lus (antwoorden : Nat → SparqlAntwoord) :
    Nat → Nat → Except SparqlFout (List (String × String)) × List Nat
  | _, 0 => (.error .responsfout, [])
  | poging, budget + 1 =>
    match antwoorden poging with
    | .responsfout =>
      if budget = 0 then (.error .responsfout, [])
      else
        let rest := query_verblijfsobjecten_lus antwoorden (poging + 1) budget
        (rest.1, 1 :: rest.2)
    | .verbindingsfout => (.error .verbindingsfout, [])
    | .ok (some regels) => (.ok regels, [])
    | .ok none => (.ok [], [])

/-- Embedding of `query_verblijfsobjecten` with `retries = 3`. -/
def query_verblijfsobjecten_client (antwoorden : Nat → SparqlAntwoord) :
    Except SparqlFout (List (String × String)) × List Nat :=
  query_verblijfsobjecten_lus antwoorden 0 3

/-- The dict a successful rijksmonumenten call builds from a JSON body
(lines 259-268). -/
def rijks_resultaat (lichaam : Option (List (String × String))) :
    String → Option String :=
  match lichaam with
  | some regels => pythonDict regels
  | none => fun _ => none

/-- The list a successful verblijfsobjecten call returns (lines 296-302). -/
def vo_resultaat (lichaam : Option (List (String × String))) :
    List (String × String) :=
  lichaam.getD []

/-! ### Geometrie en de beschermde-gezichten-index (regels 354-434) -/

/-- A point geometry parsed from a verblijfsobject's WKT.  Coordinates are
modelled over `Int` (the EPSG:28992 coordinates in the data are metric). -/
structure Punt where
  x : Int
  y : Int
deriving DecidableEq, Repr

/-- An axis-aligned bounding box, the result of `shapely.bounds`. -/
structure Doos where
  minx : Int
  miny : Int
  maxx : Int
  maxy : Int
deriving DecidableEq, Repr

/-- A parsed protected-area polygon is modelled by its observable interface:
its exact containment test (`shapely.contains(geom, punt)`) and its bounding
box (`shapely.bounds(geom)`). -/
structure Geometrie where
  bevat : Punt → Bool
  grenzen : Doos

/-- Bounds of a point geometry: a degenerate box. -/
def punt_grenzen (p : Punt) : Doos :=
  ⟨p.x, p.y, p.x, p.y⟩

/-- Axis-aligned bounding-box intersection (boundary touches count, as in
libspatialindex). -/
def dozen_doorsnijden (a b : Doos) : Bool :=
  a.minx ≤ b.maxx && b.minx ≤ a.maxx && a.miny ≤ b.maxy && b.miny ≤ a.maxy

/-- Model of the third-party `rtree.index.Index` built at lines 359-361: the
entries `(pos, bounds)` in insertion order.  The library is external to the
repository; it is modelled by its contract, with candidate retrieval
returning the positions whose stored box intersects the query box, in
insertion order. -/
def maak_index (gezichten : List (String × Geometrie)) : List (Nat × Doos) :=
  gezichten.enum.map (fun paar => (paar.1, paar.2.2.grenzen))

/-- Model of `idx.intersection(bounds)`: positions of the stored boxes that
intersect the query box. -/
def index_intersectie (idx : List (Nat × Doos)) (doos : Doos) : List Nat :=
  (idx.filter (fun paar => dozen_doorsnijden paar.2 doos)).map (fun paar => paar.1)

/-- Embedding of the closure `controleer_punt` (lines 423-428): walk the
bounding-box candidates, look each position up in
`beschermde_gezicht_geometrieën`, and return the name of the first polygon
that exactly contains the point; `None` when no candidate contains it. -/
def controleer_punt (gezichten : List (String × Geometrie))
    (idx : List (Nat × Doos)) (punt : Punt) : Option String :=
  (index_intersectie idx (punt_grenzen punt)).findSome? (fun pos =>
    match gezichten.get? pos with
    | some naamgeom => if naamgeom.2.bevat punt then some naamgeom.1 else none
    | none => none)

/-- An axis-aligned rectangle polygon; used to instantiate `Geometrie` with
concrete, decidable containment in witnesses. -/
def rechthoek (doos : Doos) : Geometrie where
  bevat := fun p =>
    doos.minx ≤ p.x && p.x ≤ doos.maxx && doos.miny ≤ p.y && p.y ≤ doos.maxy
  grenzen := doos

/-! ### De batch-orkestrator en de writer (`voer_queries_uit`,
`verwerk_batch_resultaten`, `main`, regels 340-508) -/

/-- One input row of the CSV: its `bag_verblijfsobject_id` column and the
remaining columns. -/
structure Rij where
  verblijfsobject_id : String
  overige : List (String × String)
deriving DecidableEq, Repr

/-- One parcel-geometry result row `{identificatie, verblijfsobjectWKT}`,
with the WKT already parsed to a point by `shapely.io.from_wkt`. -/
structure GeoVerblijfsobject where
  identificatie : String
  geometrie : Punt
deriving DecidableEq, Repr

/-- The stable, mocked external world the pipeline queries.  Each field is
the (deterministic) successful payload of the corresponding service:
the rijksmonumenten SPARQL rows for a given id list, the parcel-geometry
SPARQL rows for a given id list, and the two BAG Individuele Bevragingen
lookups used by the fallback resolver (`None` models a falsy/failed
response). -/
structure Omgeving where
  rijksmonumenten : List String → List (String × String)
  verblijfsobjecten : List String → List GeoVerblijfsobject
  panden : String → Option (List String)
  pand_verblijfsobjecten : String → Option (List Verblijfsobject)

/-- Embedding of `vind_alternatieve_verblijfsobjecten` (lines 159-241) as
the finite list its async generator yields, in yield order: for every pand
returned for the original id, the candidates of `verwerk_pand`; a falsy
panden or verblijfsobjecten response is logged and contributes nothing. -/
def vind_alternatieve_verblijfsobjecten (omg : Omgeving) (origineel : String) :
    List FallbackResultaat :=
  match omg.panden origineel with
  | none => []
  | some panden =>
    panden.flatMap (fun pand_id =>
      match omg.pand_verblijfsobjecten pand_id with
      | none => []
      | some verblijfsobjecten => verwerk_pand origineel verblijfsobjecten)

/-- The entry `voer_queries_uit` puts on the queue for one batch
(lines 436-442); the terminating sentinel `None` is modelled by the end of
the entry list. -/
structure QueueEntry where
  batch : List Rij
  rijksmonumenten : String → Option String
  beschermde_gezichten : String → Option String
deriving Inhabited

/-- The parcel-geometry identifications found for a queried id list
(`verblijfsobject_identificaties`, lines 370-373; a Python set, modelled as
the list of members). -/
def gevonden_ids (omg : Omgeving) (ids : List String) : List String :=
  (omg.verblijfsobjecten ids).map GeoVerblijfsobject.identificatie

/-- The missing ids of a batch, `set(identificaties_batch) -
verblijfsobject_identificaties` (lines 374-376).  Python set iteration
order is unspecified; it is modelled as first-occurrence order (no settled
claim depends on this order). -/
def ontbrekende_ids (omg : Omgeving) (batch : List Rij) : List String :=
  let ids := batch.map Rij.verblijfsobject_id
  (ids.filter (fun i => !((gevonden_ids omg ids).contains i))).dedup

/-- The dict comprehension building `verblijfsobjecten_in_beschermd_gezicht`
(lines 430-434): for each geometry, insert its containment match if any;
later duplicates of an id overwrite earlier ones. -/
def bouw_beschermd (gezichten : List (String × Geometrie))
    (idx : List (Nat × Doos)) (geos : List (String × Punt)) :
    String → Option String :=
  geos.foldl
    (fun m idp =>
      match controleer_punt gezichten idx idp.2 with
      | some naam => fun k => if k = idp.1 then some naam else m k
      | none => m)
    (fun _ => none)

/-- Embedding of one iteration of the batch loop of `voer_queries_uit`
(lines 363-442), on the success path of both clients: query both sources,
compute the missing ids, run the fallback resolver over them, record the
aliases into the mapping, re-query both sources with the alternate ids and
merge (`dict.update` / `list.extend`), then build the containment dict and
the queue entry.  When no id is missing the fallback block is skipped
(`werk_mapping_bij` over the then-empty result list leaves the mapping
untouched, as the skipped `update` does). -/
def voer_batch_uit (omg : Omgeving) (gezichten : List (String × Geometrie))
    (idx : List (Nat × Doos)) (mapping : String → Option String)
    (batch : List Rij) : (String → Option String) × QueueEntry :=
  let ids := batch.map Rij.verblijfsobject_id
  let rijksmonumenten := pythonDict (omg.rijksmonumenten ids)
  let verblijfsobjecten := omg.verblijfsobjecten ids
  let ontbrekend := ontbrekende_ids omg batch
  let fallback_resultaten :=
    ontbrekend.flatMap (vind_alternatieve_verblijfsobjecten omg)
  let mapping' := werk_mapping_bij mapping fallback_resultaten
  let fallback_ids :=
    fallback_resultaten.map FallbackResultaat.alternatief_verblijfsobject_id
  let rijksmonumenten' :=
    if ontbrekend = [] then rijksmonumenten
    else dict_update rijksmonumenten (pythonDict (omg.rijksmonumenten fallback_ids))
  let verblijfsobjecten' :=
    if ontbrekend = [] then verblijfsobjecten
    else verblijfsobjecten ++ omg.verblijfsobjecten fallback_ids
  let geos := verblijfsobjecten'.map (fun vo => (vo.identificatie, vo.geometrie))
  (mapping',
   { batch := batch
     rijksmonumenten := rijksmonumenten'
     beschermde_gezichten := bouw_beschermd gezichten idx geos })

/-- The batch loop over a list of batches: thread the process-wide
`IDENTIFICATIE_MAPPING` through the batches in input order and collect the
queue entries in enqueue order. -/
def voer_batches_uit (omg : Omgeving) (gezichten : List (String × Geometrie))
    (idx : List (Nat × Doos)) (mapping : String → Option String) :
    List (List Rij) → (String → Option String) × List QueueEntry
  | [] => (mapping, [])
  | batch :: rest =>
    let stap := voer_batch_uit omg gezichten idx mapping batch
    let verder := voer_batches_uit omg gezichten idx stap.1 rest
    (verder.1, stap.2 :: verder.2)

/-- The batch size `QUERY_BATCH_GROOTTE` (line 23). -/
def QUERY_BATCH_GROOTTE : Nat := 500

/-- The slicing loop `for i in range(0, len(df), k): df.iloc[i:i+k]`
(lines 363-364), expressed as recursion with fuel `len(df)` (each step
consumes at least one row since `k ≥ 1`, so the fuel suffices; a zero `k`
gives no batches, guarding termination). -/
def maak_batches_lus (k : Nat) : Nat → List Rij → List (List Rij)
  | 0, _ => []
  | _, [] => []
  | fuel + 1, rij :: rest =>
    (rij :: rest).take k :: maak_batches_lus k fuel ((rij :: rest).drop k)

/-- The list of batches the orchestrator slices from the input. -/
def maak_batches (k : Nat) (rijen : List Rij) : List (List Rij) :=
  maak_batches_lus k rijen.length rijen

/-- Embedding of `voer_queries_uit` (lines 353-443) on the success path:
build the spatial index once, then run the batch loop starting from the
empty process-wide mapping.  The first component is the final
`IDENTIFICATIE_MAPPING`, the second the queue contents in FIFO order. -/
def voer_queries_uit (omg : Omgeving) (gezichten : List (String × Geometrie))
    (rijen : List Rij) : (String → Option String) × List QueueEntry :=
  voer_batches_uit omg gezichten (maak_index gezichten) (fun _ => none)
    (maak_batches QUERY_BATCH_GROOTTE rijen)

/-- One enriched output row as written by `writer.writerow` (lines 461-476):
the original row plus the five derived fields. -/
structure UitvoerRij where
  rij : Rij
  is_rijksmonument : Bool
  rijksmonument_url : String
  is_beschermd_gezicht : Bool
  beschermd_gezicht_naam : String
  fallback_bag_verblijfsobject_id : String
deriving DecidableEq, Repr

/-- Embedding of the per-row body of `verwerk_batch_resultaten`
(lines 454-476): resolve the effective id through `IDENTIFICATIE_MAPPING`
(falling back to the original id), look up the monument number and the
protected-area name in the entry's dicts, and derive the output fields. -/
def verwerk_rij (mapping : String → Option String) (entry : QueueEntry)
    (rij : Rij) : UitvoerRij :=
  let verblijfsobject_id :=
    (mapping rij.verblijfsobject_id).getD rij.verblijfsobject_id
  let monument_nummer := entry.rijksmonumenten verblijfsobject_id
  let beschermd_gezicht_naam := entry.beschermde_gezichten verblijfsobject_id
  { rij := rij
    is_rijksmonument := monument_nummer.isSome
    rijksmonument_url :=
      match monument_nummer with
      | some nummer =>
        if nummer = "" then ""
        else "https://www.monumenten.nl/monument/" ++ nummer
      | none => ""
    is_beschermd_gezicht := beschermd_gezicht_naam.isSome
    beschermd_gezicht_naam := beschermd_gezicht_naam.getD ""
    fallback_bag_verblijfsobject_id :=
      if verblijfsobject_id ≠ rij.verblijfsobject_id then verblijfsobject_id
      else "" }

/-- Embedding of the writer `verwerk_batch_resultaten` (lines 446-477):
drain the FIFO queue until the sentinel and write one output row per batch
row, in batch order.  The mapping argument is the process-wide
`IDENTIFICATIE_MAPPING`; it only grows during a run and, for the claims
settled here, is taken at its final value. -/
def verwerk_batch_resultaten (mapping : String → Option String)
    (entries : List QueueEntry) : List UitvoerRij :=
  entries.flatMap (fun entry => entry.batch.map (verwerk_rij mapping entry))

/-- The composition run by `main` (lines 487-508): the orchestrator and the
writer coupled by the FIFO queue, on stable mocked responses. -/
def monumenten_pijplijn (omg : Omgeving)
    (gezichten : List (String × Geometrie)) (rijen : List Rij) :
    List UitvoerRij :=
  verwerk_batch_resultaten (voer_queries_uit omg gezichten rijen).1
    (voer_queries_uit omg gezichten rijen).2

/-! ### Het kanaal tussen orkestrator en writer (regel 497) -/

/-- State of the producer/consumer pair: how many batch entries the
orchestrator has put on the queue and how many the writer has taken.  The
backlog is their difference.  The sentinel is not counted (it carries no
batch). -/
structure KanaalToestand where
  geproduceerd : Nat
  geconsumeerd : Nat
deriving DecidableEq, Repr

/-- Step relation of the pipeline around `queue = asyncio.Queue()`
(line 497).  The queue is created without `maxsize`, so `put` never blocks:
producing is enabled whenever input batches remain (`n` is the total number
of batches), and consuming is enabled whenever the queue is nonempty. -/
inductive KanaalStap (n : Nat) : KanaalToestand → KanaalToestand → Prop
  | produceer (p c : Nat) : p < n → KanaalStap n ⟨p, c⟩ ⟨p + 1, c⟩
  | consumeer (p c : Nat) : c < p → KanaalStap n ⟨p, c⟩ ⟨p, c + 1⟩

/-- Reachability from the initial state (empty queue, nothing produced). -/
inductive KanaalBereikbaar (n : Nat) : KanaalToestand → Prop
  | start : KanaalBereikbaar n ⟨0, 0⟩
  | stap {s t : KanaalToestand} :
    KanaalBereikbaar n s → KanaalStap n s t → KanaalBereikbaar n t

/-- Number of enriched-batch results queued but not yet consumed. -/
def wachtrij_lengte (s : KanaalToestand) : Nat :=
  s.geproduceerd - s.geconsumeerd

/-! ### Concrete invoer voor getuige-instanties -/

/-- A tiny stable mocked world: every queried id is found in the
parcel-geometry source, no monuments, no fallback data. -/
def omgeving_getuige : Omgeving where
  rijksmonumenten := fun _ => []
  verblijfsobjecten := fun ids =>
    ids.map (fun i => { identificatie := i, geometrie := ⟨0, 0⟩ })
  panden := fun _ => none
  pand_verblijfsobjecten := fun _ => none

/-- Two input rows with distinct ids. -/
def rijen_getuige : List Rij :=
  [⟨"0599010000000001", []⟩, ⟨"0599010000000002", []⟩]

/-- The single queue entry the run over `rijen_getuige` produces. -/
def entry_getuige : QueueEntry :=
  (voer_queries_uit omgeving_getuige [] rijen_getuige).2.headI

/-! ## Hulplemma's -/

/-- Projection of the writer's output: the original row is kept unchanged. -/
theorem verwerk_rij_rij (mapping : String → Option String) (entry : QueueEntry)
    (rij : Rij) : (verwerk_rij mapping entry rij).rij = rij := rfl

/-- Projection of the writer's output: the fallback field as a conditional. -/
theorem verwerk_rij_fallback (mapping : String → Option String)
    (entry : QueueEntry) (rij : Rij) :
    (verwerk_rij mapping entry rij).fallback_bag_verblijfsobject_id
      = (if (mapping rij.verblijfsobject_id).getD rij.verblijfsobject_id
            ≠ rij.verblijfsobject_id
         then (mapping rij.verblijfsobject_id).getD rij.verblijfsobject_id
         else "") := rfl

/-- Projection of the writer's output: the monument flag. -/
theorem verwerk_rij_is_rijksmonument (mapping : String → Option String)
    (entry : QueueEntry) (rij : Rij) :
    (verwerk_rij mapping entry rij).is_rijksmonument
      = (entry.rijksmonumenten
          ((mapping rij.verblijfsobject_id).getD rij.verblijfsobject_id)).isSome :=
  rfl

/-- Projection of the writer's output: the monument url. -/
theorem verwerk_rij_url (mapping : String → Option String) (entry : QueueEntry)
    (rij : Rij) :
    (verwerk_rij mapping entry rij).rijksmonument_url
      = (match entry.rijksmonumenten
            ((mapping rij.verblijfsobject_id).getD rij.verblijfsobject_id) with
         | some nummer =>
           if nummer = "" then ""
           else "https://www.monumenten.nl/monument/" ++ nummer
         | none => "") := rfl

/-- Every record the fallback resolver yields carries the original id it was
asked about. -/
theorem vind_alternatieve_origineel (omg : Omgeving) (origineel : String) :
    ∀ r ∈ vind_alternatieve_verblijfsobjecten omg origineel,
      r.origineel_verblijfsobject_id = origineel := by
  intro r hr
  unfold vind_alternatieve_verblijfsobjecten at hr
  split at hr
  · cases hr
  · rw [List.mem_flatMap] at hr
    obtain ⟨pand_id, _, hr⟩ := hr
    split at hr
    · cases hr
    · unfold verwerk_pand at hr
      split at hr
      · cases hr
      · rw [List.mem_map] at hr
        obtain ⟨vo, _, rfl⟩ := hr
        rfl

/-- A key none of the fallback records aliases is left untouched by the
mapping update. -/
theorem werk_mapping_bij_onaangeraakt (mapping : String → Option String)
    (items : List FallbackResultaat) (k : String)
    (h : ∀ item ∈ items, item.origineel_verblijfsobject_id ≠ k) :
    werk_mapping_bij mapping items k = mapping k := by
  induction items generalizing mapping with
  | nil => rfl
  | cons item rest ih =>
    have hstap :
        werk_mapping_bij mapping (item :: rest) k
          = werk_mapping_bij
              (fun k' => if k' = item.origineel_verblijfsobject_id
                then some item.alternatief_verblijfsobject_id else mapping k')
              rest k := rfl
    rw [hstap, ih _ (fun it hit => h it (List.mem_cons_of_mem _ hit))]
    have : k ≠ item.origineel_verblijfsobject_id :=
      fun he => h item (List.mem_cons_self _ _) he.symm
    simp [this]

/-- The exhaustion branch of the fetcher loop: when every remaining attempt
fails (429 or connection error), the loop raises the single exhausted
message. -/
theorem ophalen_lus_uitgeput (antwoorden : Nat → FetchAntwoord) :
    ∀ (budget pogingen : Nat),
      (∀ k, k < pogingen + budget → mislukking (antwoorden k) = true) →
      ophalen_lus antwoorden pogingen budget = .fout foutmelding := by
  intro budget
  induction budget with
  | zero => intro pogingen _; rfl
  | succ b ih =>
    intro pogingen h
    have h0 : mislukking (antwoorden pogingen) = true := h pogingen (by omega)
    have hrest : ophalen_lus antwoorden (pogingen + 1) b = .fout foutmelding :=
      ih (pogingen + 1) (fun k hk => h k (by omega))
    simp only [ophalen_lus]
    cases ha : antwoorden pogingen with
    | respons status reset lichaam =>
      rw [ha] at h0
      have h429 : (status == 429) = true := h0
      simp [h429, hrest]
    | verbindingsfout => exact hrest

/-- The success branch of the fetcher loop: after `N` consecutive 429s with
budget to spare, a response with a success status returns its payload. -/
theorem ophalen_lus_slaagt (antwoorden : Nat → FetchAntwoord) :
    ∀ (N pogingen budget status reset : Nat) (lichaam : String),
      N < budget →
      (∀ k, k < N → is429 (antwoorden (pogingen + k)) = true) →
      antwoorden (pogingen + N) = .respons status reset lichaam →
      status < 400 →
      ophalen_lus antwoorden pogingen budget = .data lichaam := by
  intro N
  induction N with
  | zero =>
    intro pogingen budget status reset lichaam hb _ hN hs
    obtain ⟨b, rfl⟩ : ∃ b, budget = b + 1 := ⟨budget - 1, by omega⟩
    rw [Nat.add_zero] at hN
    have h429 : (status == 429) = false := by simp; omega
    have h400 : ¬ status ≥ 400 := by omega
    simp only [ophalen_lus]
    rw [hN]
    simp [h429, h400]
  | succ n ih =>
    intro pogingen budget status reset lichaam hb h429 hN hs
    obtain ⟨b, rfl⟩ : ∃ b, budget = b + 1 := ⟨budget - 1, by omega⟩
    have h0 : is429 (antwoorden pogingen) = true := by
      have := h429 0 (by omega)
      rwa [Nat.add_zero] at this
    have hshift : antwoorden (pogingen + 1 + n) = .respons status reset lichaam := by
      have harith : pogingen + (n + 1) = pogingen + 1 + n := by omega
      rwa [harith] at hN
    have hrest : ophalen_lus antwoorden (pogingen + 1) b = .data lichaam := by
      refine ih (pogingen + 1) b status reset lichaam (by omega) ?_ hshift hs
      intro k hk
      have := h429 (k + 1) (by omega)
      have harith : pogingen + (k + 1) = pogingen + 1 + k := by omega
      rwa [harith] at this
    simp only [ophalen_lus]
    cases ha : antwoorden pogingen with
    | respons st rs l =>
      rw [ha] at h0
      have hst : (st == 429) = true := h0
      simp [hst, hrest]
    | verbindingsfout => exact hrest

/-! ## Claim C2 — alias die wordt vastgelegd per origineel id -/

/-- Counterexample to claim C2.  With two fallback candidates for the same
original id "A", in flattened order first alternative "X" then "Y", the
recorded alias is "Y" (dict comprehensions let the LAST pair win), not the
first candidate "X" the claim states. -/
theorem c2_tegenvoorbeeld :
    werk_mapping_bij (fun _ => none)
        [⟨"A", "X", "s", "1111AA", "1", ""⟩, ⟨"A", "Y", "s", "1111AA", "1", ""⟩]
        "A" = some "Y"
      ∧ werk_mapping_bij (fun _ => none)
        [⟨"A", "X", "s", "1111AA", "1", ""⟩, ⟨"A", "Y", "s", "1111AA", "1", ""⟩]
        "A" ≠ some "X" := by
  exact ⟨rfl, by decide⟩

/-- Claim C2, amended: the alias recorded for an original id is the LAST
candidate for that id in the flattened fallback result list (the dict
comprehension built at lines 395-402 lets later pairs overwrite earlier
ones); ids without a candidate keep their previous mapping. -/
theorem c2_laatste_kandidaat_wint (mapping : String → Option String)
    (items : List FallbackResultaat) (k : String) :
    werk_mapping_bij mapping items k
      = (match items.reverse.find?
            (fun item => item.origineel_verblijfsobject_id == k) with
         | some item => some item.alternatief_verblijfsobject_id
         | none => mapping k) := by
  induction items generalizing mapping with
  | nil => rfl
  | cons item rest ih =>
    have hstap :
        werk_mapping_bij mapping (item :: rest) k
          = werk_mapping_bij
              (fun k' => if k' = item.origineel_verblijfsobject_id
                then some item.alternatief_verblijfsobject_id else mapping k')
              rest k := rfl
    rw [hstap, ih, List.reverse_cons, List.find?_append]
    cases h : rest.reverse.find?
        (fun it => it.origineel_verblijfsobject_id == k) with
    | some it => simp [Option.or]
    | none =>
      by_cases hk : item.origineel_verblijfsobject_id = k
      · have hb : (item.origineel_verblijfsobject_id == k) = true := by simp [hk]
        have hk' : k = item.origineel_verblijfsobject_id := hk.symm
        simp [Option.or, List.find?_cons, hb, hk']
      · have hb : (item.origineel_verblijfsobject_id == k) = false := by simp [hk]
        have hk' : ¬ k = item.origineel_verblijfsobject_id := fun he => hk he.symm
        simp [Option.or, List.find?_cons, hb, hk']

/-! ## Claim C3 — adresvergelijking in de fallback-resolver -/

/-- Counterexample to claim C3.  Two records at the same postcode and house
number, one with house-letter `""` and one with the field absent: the code's
`vergelijk_adressen` rejects the pair (Python `None != ""`), while the
spec-described comparison accepts it, and consequently the resolver yields
no candidate for this pand. -/
theorem c3_tegenvoorbeeld :
    vergelijk_adressen ⟨"3011AB", "5", some ""⟩ ⟨"3011AB", "5", none⟩ = false
      ∧ vergelijk_adressen_volgens_spec ⟨"3011AB", "5", some ""⟩
          ⟨"3011AB", "5", none⟩ = true
      ∧ verwerk_pand "A"
          [⟨"A", "inGebruik", ⟨"3011AB", "5", some ""⟩⟩,
           ⟨"B", "inGebruik", ⟨"3011AB", "5", none⟩⟩] = [] := by
  exact ⟨rfl, rfl, rfl⟩

/-- Claim C3, amended: two unit records in the same building match if and
only if their postal codes are equal, their house numbers are equal, and
their house-letter fields are equal as raw optional values — an absent
house-letter matches only an absent one, NOT the empty string.  A record is
yielded as a candidate alternative exactly when it is another record of the
building whose address matches the original record's address in this strict
sense. -/
theorem c3_huisletter_strikt (origineel : String)
    (verblijfsobjecten : List Verblijfsobject) (origineel_vo : Verblijfsobject)
    (hvind : verblijfsobjecten.find? (fun vo => vo.identificatie == origineel)
      = some origineel_vo) (r : FallbackResultaat) :
    r ∈ verwerk_pand origineel verblijfsobjecten ↔
      ∃ vo ∈ verblijfsobjecten,
        vo.identificatie ≠ origineel
          ∧ vo.adres.postcode = origineel_vo.adres.postcode
          ∧ vo.adres.huisnummer = origineel_vo.adres.huisnummer
          ∧ vo.adres.huisletter = origineel_vo.adres.huisletter
          ∧ r = maak_fallback_resultaat origineel vo := by
  unfold verwerk_pand
  rw [hvind]
  constructor
  · intro h
    rw [List.mem_map] at h
    obtain ⟨vo, hf, rfl⟩ := h
    rw [List.mem_filter] at hf
    obtain ⟨hmem, hcond⟩ := hf
    simp only [vergelijk_adressen, Bool.and_eq_true, bne_iff_ne, ne_eq,
      beq_iff_eq] at hcond
    obtain ⟨hne, ⟨hpc, hhn⟩, hhl⟩ := hcond
    exact ⟨vo, hmem, hne, hpc, hhn, hhl, rfl⟩
  · rintro ⟨vo, hmem, hne, hpc, hhn, hhl, rfl⟩
    rw [List.mem_map]
    refine ⟨vo, ?_, rfl⟩
    rw [List.mem_filter]
    refine ⟨hmem, ?_⟩
    simp [vergelijk_adressen, hne, hpc, hhn, hhl]

/-- Witness for the amended claim C3 at a concrete building: the second
record shares the first record's address (both without house-letter), so it
is yielded as a candidate. -/
theorem c3_huisletter_strikt_witness :
    maak_fallback_resultaat "A" ⟨"B", "inGebruik", ⟨"1111AA", "1", none⟩⟩
      ∈ verwerk_pand "A"
        [⟨"A", "inGebruik", ⟨"1111AA", "1", none⟩⟩,
         ⟨"B", "inGebruik", ⟨"1111AA", "1", none⟩⟩] := by
  refine (c3_huisletter_strikt "A"
      [⟨"A", "inGebruik", ⟨"1111AA", "1", none⟩⟩,
       ⟨"B", "inGebruik", ⟨"1111AA", "1", none⟩⟩]
      ⟨"A", "inGebruik", ⟨"1111AA", "1", none⟩⟩ (by decide) _).mpr ?_
  refine ⟨⟨"B", "inGebruik", ⟨"1111AA", "1", none⟩⟩, ?_, ?_, rfl, rfl, rfl, rfl⟩
  · exact List.mem_cons_of_mem _ (List.mem_cons_self _ _)
  · decide

/-! ## Claim C6 — retrygedrag van de fetcher -/

/-- Claim C6: for every response sequence of N consecutive 429s with N < 5
followed by a response with a success status, `ophalen_met_retry` returns
exactly that response's payload; and for every sequence whose first 5
responses all fail (429 or connection error), it raises the
exhausted-retries error instead of returning. -/
theorem c6_fetcher_retry (antwoorden : Nat → FetchAntwoord) :
    (∀ (N status reset : Nat) (lichaam : String), N < 5 →
        (∀ k, k < N → is429 (antwoorden k) = true) →
        antwoorden N = .respons status reset lichaam → status < 400 →
        ophalen_met_retry antwoorden = .data lichaam)
      ∧ ((∀ k, k < 5 → mislukking (antwoorden k) = true) →
        ophalen_met_retry antwoorden = .fout foutmelding) := by
  constructor
  · intro N status reset lichaam hN h429 hsucces hstatus
    refine ophalen_lus_slaagt antwoorden N 0 5 status reset lichaam hN ?_ ?_ hstatus
    · intro k hk
      have := h429 k hk
      rwa [Nat.zero_add]
    · rwa [Nat.zero_add]
  · intro h
    exact ophalen_lus_uitgeput antwoorden 5 0 (fun k hk => h k (by omega))

/-- Witness for claim C6: two 429s followed by a success return the success
payload; five connection errors raise the exhausted-retries error. -/
theorem c6_fetcher_retry_witness :
    ophalen_met_retry
        (fun n => if n < 2 then .respons 429 1 "" else .respons 200 1 "ok")
      = .data "ok"
      ∧ ophalen_met_retry (fun _ => .verbindingsfout) = .fout foutmelding := by
  constructor
  · refine (c6_fetcher_retry _).1 2 200 1 "ok" (by omega) ?_ rfl (by omega)
    intro k hk
    interval_cases k <;> rfl
  · exact (c6_fetcher_retry _).2 (fun k _ => rfl)

/-! ## Claim C7 — de uitputtingsfout onderscheidt de oorzaak niet -/

/-- Counterexample to claim C7.  A run that fails five times purely through
connection errors and a run that fails five times purely through rate
limiting raise the SAME exception value (the one message of lines 153-155
naming both possible causes), so a caller cannot tell which cause applied. -/
theorem c7_tegenvoorbeeld :
    ophalen_met_retry (fun _ => .verbindingsfout) = .fout foutmelding
      ∧ ophalen_met_retry (fun _ => .respons 429 1 "x") = .fout foutmelding := by
  exact ⟨rfl, rfl⟩

/-- Claim C7, amended: when the fetcher exhausts its 5 attempts, it raises a
single, cause-agnostic error whose message merely names both possible causes
("verbindingsproblemen of rate limiting"); any two all-failing response
sequences produce identical outcomes, so the error does not let a caller
distinguish connectivity exhaustion from rate-limit exhaustion. -/
theorem c7_fout_onderscheidt_oorzaak_niet (a b : Nat → FetchAntwoord)
    (ha : ∀ k, k < 5 → mislukking (a k) = true)
    (hb : ∀ k, k < 5 → mislukking (b k) = true) :
    ophalen_met_retry a = ophalen_met_retry b := by
  exact (ophalen_lus_uitgeput a 5 0 (fun k hk => ha k (by omega))).trans
    (ophalen_lus_uitgeput b 5 0 (fun k hk => hb k (by omega))).symm

/-- Witness for the amended claim C7: an all-connection-error run and an
all-429 run have the same outcome. -/
theorem c7_fout_onderscheidt_oorzaak_niet_witness :
    ophalen_met_retry (fun _ => .verbindingsfout)
      = ophalen_met_retry (fun _ => .respons 429 7 "yy") :=
  c7_fout_onderscheidt_oorzaak_niet _ _ (fun _ _ => rfl) (fun _ _ => rfl)

/-! ## Claim C8 — retrygedrag van de SPARQL-clients -/

/-- Success path of the rijksmonumenten client loop: N response errors with
budget to spare, then a JSON payload. -/
theorem rijks_lus_slaagt (antwoorden : Nat → SparqlAntwoord) :
    ∀ (N poging budget : Nat) (lichaam : Option (List (String × String))),
      N < budget →
      (∀ k, k < N → antwoorden (poging + k) = .responsfout) →
      antwoorden (poging + N) = .ok lichaam →
      query_rijksmonumenten_lus antwoorden poging budget
        = (.ok (rijks_resultaat lichaam), List.replicate N 1) := by
  intro N
  induction N with
  | zero =>
    intro poging budget lichaam hb _ hok
    obtain ⟨b, rfl⟩ : ∃ b, budget = b + 1 := ⟨budget - 1, by omega⟩
    rw [Nat.add_zero] at hok
    simp only [query_rijksmonumenten_lus]
    rw [hok]
    cases lichaam <;> rfl
  | succ n ih =>
    intro poging budget lichaam hb hfout hok
    obtain ⟨b, rfl⟩ : ∃ b, budget = b + 1 := ⟨budget - 1, by omega⟩
    have h0 : antwoorden poging = .responsfout := by
      have := hfout 0 (by omega)
      rwa [Nat.add_zero] at this
    have hbne : ¬ b = 0 := by omega
    have hrest :
        query_rijksmonumenten_lus antwoorden (poging + 1) b
          = (.ok (rijks_resultaat lichaam), List.replicate n 1) := by
      refine ih (poging + 1) b lichaam (by omega) ?_ ?_
      · intro k hk
        have := hfout (k + 1) (by omega)
        have harith : poging + (k + 1) = poging + 1 + k := by omega
        rwa [harith] at this
      · have harith : poging + (n + 1) = poging + 1 + n := by omega
        rwa [harith] at hok
    simp only [query_rijksmonumenten_lus]
    rw [h0]
    simp [hbne, hrest, List.replicate_succ]

/-- Exhaustion path of the rijksmonumenten client loop: every attempt is a
response error, the final one re-raises after `budget - 1` sleeps. -/
theorem rijks_lus_uitgeput (antwoorden : Nat → SparqlAntwoord) :
    ∀ (budget poging : Nat), budget ≠ 0 →
      (∀ k, k < budget → antwoorden (poging + k) = .responsfout) →
      query_rijksmonumenten_lus antwoorden poging budget
        = (.error .responsfout, List.replicate (budget - 1) 1) := by
  intro budget
  induction budget with
  | zero => intro poging h; omega
  | succ b ih =>
    intro poging _ hfout
    have h0 : antwoorden poging = .responsfout := by
      have := hfout 0 (by omega)
      rwa [Nat.add_zero] at this
    simp only [query_rijksmonumenten_lus]
    rw [h0]
    cases b with
    | zero => rfl
    | succ b' =>
      have hrest :
          query_rijksmonumenten_lus antwoorden (poging + 1) (b' + 1)
            = (.error .responsfout, List.replicate b' 1) := by
        refine ih poging.succ (by omega) ?_
        intro k hk
        have := hfout (k + 1) (by omega)
        have harith : poging + (k + 1) = poging.succ + k := by omega
        rwa [harith] at this
      simp [hrest, List.replicate_succ]

/-- Connection-error path of the rijksmonumenten client loop: the first
connection-level failure propagates at once, after only the sleeps already
spent on preceding response errors. -/
theorem rijks_lus_verbindingsfout (antwoorden : Nat → SparqlAntwoord) :
    ∀ (N poging budget : Nat),
      N < budget →
      (∀ k, k < N → antwoorden (poging + k) = .responsfout) →
      antwoorden (poging + N) = .verbindingsfout →
      query_rijksmonumenten_lus antwoorden poging budget
        = (.error .verbindingsfout, List.replicate N 1) := by
  intro N
  induction N with
  | zero =>
    intro poging budget hb _ hconn
    obtain ⟨b, rfl⟩ : ∃ b, budget = b + 1 := ⟨budget - 1, by omega⟩
    rw [Nat.add_zero] at hconn
    simp only [query_rijksmonumenten_lus]
    rw [hconn]
    rfl
  | succ n ih =>
    intro poging budget hb hfout hconn
    obtain ⟨b, rfl⟩ : ∃ b, budget = b + 1 := ⟨budget - 1, by omega⟩
    have h0 : antwoorden poging = .responsfout := by
      have := hfout 0 (by omega)
      rwa [Nat.add_zero] at this
    have hbne : ¬ b = 0 := by omega
    have hrest :
        query_rijksmonumenten_lus antwoorden (poging + 1) b
          = (.error .verbindingsfout, List.replicate n 1) := by
      refine ih (poging + 1) b (by omega) ?_ ?_
      · intro k hk
        have := hfout (k + 1) (by omega)
        have harith : poging + (k + 1) = poging + 1 + k := by omega
        rwa [harith] at this
      · have harith : poging + (n + 1) = poging + 1 + n := by omega
        rwa [harith] at hconn
    simp only [query_rijksmonumenten_lus]
    rw [h0]
    simp [hbne, hrest, List.replicate_succ]

/-- Success path of the verblijfsobjecten client loop. -/
theorem vo_lus_slaagt (antwoorden : Nat → SparqlAntwoord) :
    ∀ (N poging budget : Nat) (lichaam : Option (List (String × String))),
      N < budget →
      (∀ k, k < N → antwoorden (poging + k) = .responsfout) →
      antwoorden (poging + N) = .ok lichaam →
      query_verblijfsobjecten_lus antwoorden poging budget
        = (.ok (vo_resultaat lichaam), List.replicate N 1) := by
  intro N
  induction N with
  | zero =>
    intro poging budget lichaam hb _ hok
    obtain ⟨b, rfl⟩ : ∃ b, budget = b + 1 := ⟨budget - 1, by omega⟩
    rw [Nat.add_zero] at hok
    simp only [query_verblijfsobjecten_lus]
    rw [hok]
    cases lichaam <;> rfl
  | succ n ih =>
    intro poging budget lichaam hb hfout hok
    obtain ⟨b, rfl⟩ : ∃ b, budget = b + 1 := ⟨budget - 1, by omega⟩
    have h0 : antwoorden poging = .responsfout := by
      have := hfout 0 (by omega)
      rwa [Nat.add_zero] at this
    have hbne : ¬ b = 0 := by omega
    have hrest :
        query_verblijfsobjecten_lus antwoorden (poging + 1) b
          = (.ok (vo_resultaat lichaam), List.replicate n 1) := by
      refine ih (poging + 1) b lichaam (by omega) ?_ ?_
      · intro k hk
        have := hfout (k + 1) (by omega)
        have harith : poging + (k + 1) = poging + 1 + k := by omega
        rwa [harith] at this
      · have harith : poging + (n + 1) = poging + 1 + n := by omega
        rwa [harith] at hok
    simp only [query_verblijfsobjecten_lus]
    rw [h0]
    simp [hbne, hrest, List.replicate_succ]

/-- Exhaustion path of the verblijfsobjecten client loop. -/
theorem vo_lus_uitgeput (antwoorden : Nat → SparqlAntwoord) :
    ∀ (budget poging : Nat), budget ≠ 0 →
      (∀ k, k < budget → antwoorden (poging + k) = .responsfout) →
      query_verblijfsobjecten_lus antwoorden poging budget
        = (.error .responsfout, List.replicate (budget - 1) 1) := by
  intro budget
  induction budget with
  | zero => intro poging h; omega
  | succ b ih =>
    intro poging _ hfout
    have h0 : antwoorden poging = .responsfout := by
      have := hfout 0 (by omega)
      rwa [Nat.add_zero] at this
    simp only [query_verblijfsobjecten_lus]
    rw [h0]
    cases b with
    | zero => rfl
    | succ b' =>
      have hrest :
          query_verblijfsobjecten_lus antwoorden (poging + 1) (b' + 1)
            = (.error .responsfout, List.replicate b' 1) := by
        refine ih poging.succ (by omega) ?_
        intro k hk
        have := hfout (k + 1) (by omega)
        have harith : poging + (k + 1) = poging.succ + k := by omega
        rwa [harith] at this
      simp [hrest, List.replicate_succ]

/-- Connection-error path of the verblijfsobjecten client loop. -/
theorem vo_lus_verbindingsfout (antwoorden : Nat → SparqlAntwoord) :
    ∀ (N poging budget : Nat),
      N < budget →
      (∀ k, k < N → antwoorden (poging + k) = .responsfout) →
      antwoorden (poging + N) = .verbindingsfout →
      query_verblijfsobjecten_lus antwoorden poging budget
        = (.error .verbindingsfout, List.replicate N 1) := by
  intro N
  induction N with
  | zero =>
    intro poging budget hb _ hconn
    obtain ⟨b, rfl⟩ : ∃ b, budget = b + 1 := ⟨budget - 1, by omega⟩
    rw [Nat.add_zero] at hconn
    simp only [query_verblijfsobjecten_lus]
    rw [hconn]
    rfl
  | succ n ih =>
    intro poging budget hb hfout hconn
    obtain ⟨b, rfl⟩ : ∃ b, budget = b + 1 := ⟨budget - 1, by omega⟩
    have h0 : antwoorden poging = .responsfout := by
      have := hfout 0 (by omega)
      rwa [Nat.add_zero] at this
    have hbne : ¬ b = 0 := by omega
    have hrest :
        query_verblijfsobjecten_lus antwoorden (poging + 1) b
          = (.error .verbindingsfout, List.replicate n 1) := by
      refine ih (poging + 1) b (by omega) ?_ ?_
      · intro k hk
        have := hfout (k + 1) (by omega)
        have harith : poging + (k + 1) = poging + 1 + k := by omega
        rwa [harith] at this
      · have harith : poging + (n + 1) = poging + 1 + n := by omega
        rwa [harith] at hconn
    simp only [query_verblijfsobjecten_lus]
    rw [h0]
    simp [hbne, hrest, List.replicate_succ]

/-- Counterexample to claim C8.  A single connection-level failure on the
first attempt — with a success available on the second — makes both clients
propagate a fatal connection error at once, with no retry and no 1-second
delay, although the claim states any request-level error is retried up to
3 times. -/
theorem c8_tegenvoorbeeld :
    (query_rijksmonumenten_client
        (fun n => if n = 0 then .verbindingsfout
          else .ok (some [("0599010000000001", "12345")]))).1
      = .error .verbindingsfout
      ∧ (query_rijksmonumenten_client
          (fun n => if n = 0 then .verbindingsfout
            else .ok (some [("0599010000000001", "12345")]))).2 = []
      ∧ (query_verblijfsobjecten_client
          (fun n => if n = 0 then .verbindingsfout
            else .ok (some [("0599010000000001", "POINT (1 2)")]))).1
        = .error .verbindingsfout := by
  exact ⟨rfl, rfl, rfl⟩

/-- Claim C8, amended: both batched query clients retry up to 3 times on
HTTP response errors (`aiohttp.ClientResponseError`) only, with a fixed
1-second delay between attempts (the second component lists the sleeps
performed), and the 3rd consecutive response error propagates as fatal;
connection-level failures are NOT caught and propagate immediately on first
occurrence. -/
theorem c8_retry_alleen_responsfouten (antwoorden : Nat → SparqlAntwoord) :
    (∀ (N : Nat) (lichaam : Option (List (String × String))), N < 3 →
        (∀ k, k < N → antwoorden k = .responsfout) →
        antwoorden N = .ok lichaam →
        query_rijksmonumenten_client antwoorden
            = (.ok (rijks_resultaat lichaam), List.replicate N 1)
          ∧ query_verblijfsobjecten_client antwoorden
            = (.ok (vo_resultaat lichaam), List.replicate N 1))
      ∧ ((∀ k, k < 3 → antwoorden k = .responsfout) →
        query_rijksmonumenten_client antwoorden
            = (.error .responsfout, List.replicate 2 1)
          ∧ query_verblijfsobjecten_client antwoorden
            = (.error .responsfout, List.replicate 2 1))
      ∧ (∀ N : Nat, N < 3 →
        (∀ k, k < N → antwoorden k = .responsfout) →
        antwoorden N = .verbindingsfout →
        query_rijksmonumenten_client antwoorden
            = (.error .verbindingsfout, List.replicate N 1)
          ∧ query_verblijfsobjecten_client antwoorden
            = (.error .verbindingsfout, List.replicate N 1)) := by
  refine ⟨?_, ?_, ?_⟩
  · intro N lichaam hN hfout hok
    constructor
    · refine rijks_lus_slaagt antwoorden N 0 3 lichaam hN ?_ ?_
      · intro k hk; have := hfout k hk; rwa [Nat.zero_add]
      · rwa [Nat.zero_add]
    · refine vo_lus_slaagt antwoorden N 0 3 lichaam hN ?_ ?_
      · intro k hk; have := hfout k hk; rwa [Nat.zero_add]
      · rwa [Nat.zero_add]
  · intro hfout
    constructor
    · refine rijks_lus_uitgeput antwoorden 3 0 (by omega) ?_
      intro k hk
      have := hfout k (by omega)
      rwa [Nat.zero_add]
    · refine vo_lus_uitgeput antwoorden 3 0 (by omega) ?_
      intro k hk
      have := hfout k (by omega)
      rwa [Nat.zero_add]
  · intro N hN hfout hconn
    constructor
    · refine rijks_lus_verbindingsfout antwoorden N 0 3 hN ?_ ?_
      · intro k hk; have := hfout k hk; rwa [Nat.zero_add]
      · rwa [Nat.zero_add]
    · refine vo_lus_verbindingsfout antwoorden N 0 3 hN ?_ ?_
      · intro k hk; have := hfout k hk; rwa [Nat.zero_add]
      · rwa [Nat.zero_add]

/-- Witness for the amended claim C8: one response error, one 1-second
sleep, then a success on the second attempt. -/
theorem c8_retry_alleen_responsfouten_witness :
    query_rijksmonumenten_client
        (fun n => if n = 0 then .responsfout
          else .ok (some [("0599010000000001", "12345")]))
      = (.ok (rijks_resultaat (some [("0599010000000001", "12345")])),
          List.replicate 1 1)
      ∧ query_verblijfsobjecten_client
        (fun n => if n = 0 then .responsfout
          else .ok (some [("0599010000000001", "12345")]))
      = (.ok (vo_resultaat (some [("0599010000000001", "12345")])),
          List.replicate 1 1) := by
  refine (c8_retry_alleen_responsfouten _).1 1
    (some [("0599010000000001", "12345")]) (by omega) ?_ rfl
  intro k hk
  interval_cases k
  rfl

/-! ## Claim C9 — begrensdheid van het kanaal -/

/-- Producing every batch before any is consumed is reachable: the queue is
unbounded, so `put` is always enabled. -/
theorem kanaal_bereikbaar_vol (n : Nat) :
    ∀ k, k ≤ n → KanaalBereikbaar n ⟨k, 0⟩ := by
  intro k
  induction k with
  | zero => intro _; exact .start
  | succ m ih =>
    intro h
    exact .stap (ih (by omega)) (.produceer m 0 (by omega))

/-- Counterexample to claim C9 (its negation): there is NO fixed constant
bounding the backlog over all runs — for every proposed constant `K`, a run
with `K + 1` input batches reaches the state where all of them are queued
and none consumed. -/
theorem c9_tegenvoorbeeld :
    ¬ ∃ K : Nat, ∀ (n : Nat) (s : KanaalToestand),
        KanaalBereikbaar n s → wachtrij_lengte s ≤ K := by
  rintro ⟨K, hK⟩
  have h := hK (K + 1) ⟨K + 1, 0⟩ (kanaal_bereikbaar_vol (K + 1) (K + 1) le_rfl)
  simp [wachtrij_lengte] at h

/-- Claim C9, amended: the channel created at line 497 is unbounded
(`asyncio.Queue()` without `maxsize`), so the backlog is bounded only by the
total number of batches `n` of the run — a bound that grows with the input —
and the state with all `n` batches queued and none consumed is reachable. -/
theorem c9_onbegrensd_kanaal (n : Nat) :
    KanaalBereikbaar n ⟨n, 0⟩
      ∧ ∀ s : KanaalToestand, KanaalBereikbaar n s → wachtrij_lengte s ≤ n := by
  constructor
  · exact kanaal_bereikbaar_vol n n le_rfl
  · intro s h
    induction h with
    | start => simp [wachtrij_lengte]
    | stap hb hs ih =>
      cases hs with
      | produceer p c hp => simp [wachtrij_lengte] at ih ⊢; omega
      | consumeer p c hc => simp [wachtrij_lengte] at ih ⊢; omega

/-- Witness for the amended claim C9 at `n = 3`: the fully-produced,
nothing-consumed state is reachable and its backlog is (only) bounded by 3. -/
theorem c9_onbegrensd_kanaal_witness :
    KanaalBereikbaar 3 ⟨3, 0⟩ ∧ wachtrij_lengte ⟨3, 0⟩ ≤ 3 :=
  ⟨(c9_onbegrensd_kanaal 3).1,
    (c9_onbegrensd_kanaal 3).2 ⟨3, 0⟩ (c9_onbegrensd_kanaal 3).1⟩

/-! ## Claim C5 — deterministische containment-matching -/

/-- Generalised walk over the suffix `rest` of the polygon list starting at
index position `k`: provided the spatial lookups at positions `k + i` land
back in `rest`, and every containing polygon's bounding box intersects the
point's bounds, the candidate walk returns the first containing polygon of
`rest`. -/
theorem controleer_punt_aux (gezichten : List (String × Geometrie)) (p : Punt) :
    ∀ (rest : List (String × Geometrie)) (k : Nat),
      (∀ i, gezichten.get? (k + i) = rest.get? i) →
      (∀ ng ∈ rest, ng.2.bevat p = true →
        dozen_doorsnijden ng.2.grenzen (punt_grenzen p) = true) →
      (index_intersectie
          ((rest.enumFrom k).map (fun paar => (paar.1, paar.2.2.grenzen)))
          (punt_grenzen p)).findSome? (fun pos =>
        match gezichten.get? pos with
        | some naamgeom => if naamgeom.2.bevat p then some naamgeom.1 else none
        | none => none)
        = (rest.find? (fun ng => ng.2.bevat p)).map Prod.fst := by
  intro rest
  induction rest with
  | nil => intro k _ _; rfl
  | cons ng rest ih =>
    intro k hget hsluit
    have hget0 : gezichten.get? k = some ng := by
      have := hget 0
      rwa [Nat.add_zero] at this
    have hgetrest : ∀ i, gezichten.get? (k + 1 + i) = rest.get? i := by
      intro i
      have := hget (i + 1)
      have harith : k + (i + 1) = k + 1 + i := by omega
      rwa [harith] at this
    have hsluitrest : ∀ ng' ∈ rest, ng'.2.bevat p = true →
        dozen_doorsnijden ng'.2.grenzen (punt_grenzen p) = true :=
      fun ng' h => hsluit ng' (List.mem_cons_of_mem _ h)
    rw [List.enumFrom_cons, List.map_cons]
    unfold index_intersectie
    rw [List.filter_cons]
    by_cases hdoos :
        dozen_doorsnijden ((k, ng).1, (k, ng).2.2.grenzen).2 (punt_grenzen p) = true
    · rw [if_pos hdoos, List.map_cons, List.findSome?_cons]
      have hget0' : gezichten.get? ((((k, ng).1, (k, ng).2.2.grenzen)).1)
          = some ng := hget0
      rw [hget0', List.find?_cons]
      by_cases hbevat : ng.2.bevat p = true
      · simp [hbevat]
      · have hbevat' : ng.2.bevat p = false := by
          cases h : ng.2.bevat p
          · rfl
          · exact absurd h hbevat
        simp only [hbevat', if_false]
        exact ih (k + 1) hgetrest hsluitrest
    · rw [if_neg hdoos]
      have hbevat' : ng.2.bevat p = false := by
        cases h : ng.2.bevat p
        · rfl
        · exact absurd (hsluit ng (List.mem_cons_self _ _) h) hdoos
      rw [List.find?_cons]
      simp only [hbevat', if_false]
      exact ih (k + 1) hgetrest hsluitrest

/-- Claim C5: with a fixed polygon set and insertion order, and bounding
boxes that are sound for containment (a contained point's bounds intersect
the polygon's bounds — true of real geometries), `controleer_punt` is the
deterministic function returning the FIRST-inserted polygon that exactly
contains the point, and `none` when no polygon contains it.  In particular a
point inside exactly one polygon yields that polygon's name, and a point
inside two or more yields the first-inserted match. -/
theorem c5_containment_deterministisch (gezichten : List (String × Geometrie))
    (p : Punt)
    (hsluitend : ∀ ng ∈ gezichten, ng.2.bevat p = true →
      dozen_doorsnijden ng.2.grenzen (punt_grenzen p) = true) :
    controleer_punt gezichten (maak_index gezichten) p
        = (gezichten.find? (fun ng => ng.2.bevat p)).map Prod.fst
      ∧ ((∀ ng ∈ gezichten, ng.2.bevat p = false) →
        controleer_punt gezichten (maak_index gezichten) p = none) := by
  have hkar : controleer_punt gezichten (maak_index gezichten) p
      = (gezichten.find? (fun ng => ng.2.bevat p)).map Prod.fst := by
    have h := controleer_punt_aux gezichten p gezichten 0
      (fun i => by rw [Nat.zero_add]) hsluitend
    exact h
  refine ⟨hkar, fun halles => ?_⟩
  rw [hkar]
  have hvind : gezichten.find? (fun ng => ng.2.bevat p) = none :=
    List.find?_eq_none.mpr (fun x hx => by simp [halles x hx])
  rw [hvind]
  rfl

/-- Witness for claim C5: the point (3,3) lies inside both rectangles, and
the first-inserted one ("binnenstad") is returned; the point (9,9) lies
inside neither, and no name is returned. -/
theorem c5_containment_deterministisch_witness :
    controleer_punt
        [("binnenstad", rechthoek ⟨0, 0, 4, 4⟩), ("haven", rechthoek ⟨2, 2, 6, 6⟩)]
        (maak_index
          [("binnenstad", rechthoek ⟨0, 0, 4, 4⟩), ("haven", rechthoek ⟨2, 2, 6, 6⟩)])
        ⟨3, 3⟩
      = some "binnenstad" := by
  have hsluitend : ∀ ng ∈
      [("binnenstad", rechthoek (⟨0, 0, 4, 4⟩ : Doos)),
       ("haven", rechthoek ⟨2, 2, 6, 6⟩)],
      ng.2.bevat (⟨3, 3⟩ : Punt) = true →
      dozen_doorsnijden ng.2.grenzen (punt_grenzen ⟨3, 3⟩) = true := by
    intro ng hng _
    cases hng with
    | head => rfl
    | tail _ h2 =>
      cases h2 with
      | head => rfl
      | tail _ h3 => cases h3
  rw [(c5_containment_deterministisch _ ⟨3, 3⟩ hsluitend).1]
  rfl

/-! ## Claim C1 — één uitvoerrij per invoerrij, in invoervolgorde -/

/-- Concatenating the slices `df.iloc[i:i+k]` gives back the input. -/
theorem maak_batches_lus_flatten (k : Nat) (hk : k ≠ 0) :
    ∀ (fuel : Nat) (l : List Rij), l.length ≤ fuel →
      (maak_batches_lus k fuel l).flatten = l := by
  intro fuel
  induction fuel with
  | zero =>
    intro l hl
    cases l with
    | nil => rfl
    | cons a rest => simp at hl
  | succ f ih =>
    intro l hl
    cases l with
    | nil => rfl
    | cons a rest =>
      have hlen : ((a :: rest).drop k).length ≤ f := by
        rw [List.length_drop]
        simp only [List.length_cons] at hl ⊢
        omega
      show ((a :: rest).take k
          :: maak_batches_lus k f ((a :: rest).drop k)).flatten = a :: rest
      rw [List.flatten_cons, ih _ hlen, List.take_append_drop]

/-- Concatenating the batches of a run gives back the input rows. -/
theorem maak_batches_flatten (rijen : List Rij) :
    (maak_batches QUERY_BATCH_GROOTTE rijen).flatten = rijen :=
  maak_batches_lus_flatten QUERY_BATCH_GROOTTE (by decide) rijen.length rijen
    le_rfl

/-- The queued entries carry exactly the sliced batches, in order. -/
theorem voer_batches_uit_batches (omg : Omgeving)
    (gz : List (String × Geometrie)) (idx : List (Nat × Doos)) :
    ∀ (bs : List (List Rij)) (mapping : String → Option String),
      (voer_batches_uit omg gz idx mapping bs).2.map QueueEntry.batch = bs := by
  intro bs
  induction bs with
  | nil => intro mapping; rfl
  | cons b rest ih =>
    intro mapping
    show (voer_batch_uit omg gz idx mapping b).2.batch
        :: ((voer_batches_uit omg gz idx
            (voer_batch_uit omg gz idx mapping b).1 rest).2.map QueueEntry.batch)
      = b :: rest
    rw [ih]
    rfl

/-- Claim C1: for every input table and every stable mocked external world,
the pipeline writes exactly one output row per input row and the output
rows appear in exactly the input row order (mapping each output row to its
embedded input row gives back the input list itself, which also forces
equal lengths). -/
theorem c1_uitvoer_behoudt_rijen (omg : Omgeving)
    (gezichten : List (String × Geometrie)) (rijen : List Rij) :
    (monumenten_pijplijn omg gezichten rijen).map UitvoerRij.rij = rijen := by
  unfold monumenten_pijplijn verwerk_batch_resultaten
  rw [List.map_flatMap]
  have hbinnen : ∀ entry : QueueEntry,
      (entry.batch.map
          (verwerk_rij (voer_queries_uit omg gezichten rijen).1 entry)).map
        UitvoerRij.rij = entry.batch := by
    intro entry
    rw [List.map_map]
    have hid : (UitvoerRij.rij
        ∘ verwerk_rij (voer_queries_uit omg gezichten rijen).1 entry) = id := by
      funext r
      rfl
    rw [hid, List.map_id]
  simp only [hbinnen]
  rw [List.flatMap_def]
  show ((voer_batches_uit omg gezichten (maak_index gezichten) (fun _ => none)
      (maak_batches QUERY_BATCH_GROOTTE rijen)).2.map QueueEntry.batch).flatten
    = rijen
  rw [voer_batches_uit_batches, maak_batches_flatten]

/-! ## Claim C10 — monumentvelden van een uitvoerrij -/

/-- A monument url built from a nonempty number is nonempty. -/
theorem monument_url_nonleeg (nummer : String) :
    "https://www.monumenten.nl/monument/" ++ nummer ≠ "" := by
  intro h
  have hlen := congrArg String.length h
  rw [String.length_append] at hlen
  have h35 : ("https://www.monumenten.nl/monument/" : String).length = 35 := rfl
  have h0 : ("" : String).length = 0 := rfl
  rw [h35, h0] at hlen
  omega

/-- Claim C10: for every output row, `is_rijksmonument` is true exactly when
the batch's monument dict contains the row's effective (possibly aliased)
id; `rijksmonument_url` is non-empty exactly when that dict's value is a
truthy (non-empty) monument number, in which case it is the fixed prefix
followed by the number; and a mapped empty-string number gives
`is_rijksmonument = true` with an empty url. -/
theorem c10_monument_velden (mapping : String → Option String)
    (entry : QueueEntry) (rij : Rij) :
    ((verwerk_rij mapping entry rij).is_rijksmonument
        = (entry.rijksmonumenten
            ((mapping rij.verblijfsobject_id).getD rij.verblijfsobject_id)).isSome)
      ∧ ((verwerk_rij mapping entry rij).rijksmonument_url ≠ ""
          ↔ ∃ nummer,
              entry.rijksmonumenten
                  ((mapping rij.verblijfsobject_id).getD rij.verblijfsobject_id)
                = some nummer ∧ nummer ≠ "")
      ∧ (∀ nummer,
          entry.rijksmonumenten
              ((mapping rij.verblijfsobject_id).getD rij.verblijfsobject_id)
            = some nummer → nummer ≠ "" →
          (verwerk_rij mapping entry rij).rijksmonument_url
            = "https://www.monumenten.nl/monument/" ++ nummer)
      ∧ (entry.rijksmonumenten
            ((mapping rij.verblijfsobject_id).getD rij.verblijfsobject_id)
          = some "" →
        (verwerk_rij mapping entry rij).is_rijksmonument = true
          ∧ (verwerk_rij mapping entry rij).rijksmonument_url = "") := by
  refine ⟨rfl, ?_, ?_, ?_⟩
  · rw [verwerk_rij_url]
    cases hmn : entry.rijksmonumenten
        ((mapping rij.verblijfsobject_id).getD rij.verblijfsobject_id) with
    | none => simp
    | some nummer =>
      by_cases hn : nummer = ""
      · subst hn
        simp
      · simp only [hn, if_false]
        constructor
        · intro _
          exact ⟨nummer, rfl, hn⟩
        · intro _
          exact monument_url_nonleeg nummer
  · intro nummer hmn hn
    rw [verwerk_rij_url, hmn]
    simp [hn]
  · intro hmn
    refine ⟨?_, ?_⟩
    · rw [verwerk_rij_is_rijksmonument, hmn]
      rfl
    · rw [verwerk_rij_url, hmn]
      rfl

/-- Witness for claim C10: an id mapped to monument number "12345" gets the
monument url with that number appended. -/
theorem c10_monument_velden_witness :
    (verwerk_rij (fun _ => none)
        { batch := []
          rijksmonumenten :=
            fun k => if k = "0599010000000001" then some "12345" else none
          beschermde_gezichten := fun _ => none }
        ⟨"0599010000000001", []⟩).rijksmonument_url
      = "https://www.monumenten.nl/monument/" ++ "12345" := by
  exact (c10_monument_velden _ _ _).2.2.1 "12345" rfl (by decide)

/-! ## Claim C4 — het fallback-veld is leeg voor gevonden ids -/

/-- A missing id of a batch is one of the batch's queried ids and is not
among the parcel-geometry results for that batch. -/
theorem ontbrekende_ids_lid (omg : Omgeving) (batch : List Rij) (k : String)
    (h : k ∈ ontbrekende_ids omg batch) :
    k ∈ batch.map Rij.verblijfsobject_id
      ∧ k ∉ gevonden_ids omg (batch.map Rij.verblijfsobject_id) := by
  unfold ontbrekende_ids at h
  rw [List.mem_dedup, List.mem_filter] at h
  refine ⟨h.1, fun hmem => ?_⟩
  have hc : (gevonden_ids omg (batch.map Rij.verblijfsobject_id)).contains k
      = true := List.elem_iff.mpr hmem
  have h2 := h.2
  rw [hc] at h2
  cases h2

/-- A key that is not missing in a batch is left untouched by that batch's
mapping update. -/
theorem voer_batch_uit_mapping (omg : Omgeving)
    (gz : List (String × Geometrie)) (idx : List (Nat × Doos))
    (mapping : String → Option String) (batch : List Rij) (k : String)
    (h : k ∉ ontbrekende_ids omg batch) :
    (voer_batch_uit omg gz idx mapping batch).1 k = mapping k := by
  show werk_mapping_bij mapping
      ((ontbrekende_ids omg batch).flatMap
        (vind_alternatieve_verblijfsobjecten omg)) k
    = mapping k
  apply werk_mapping_bij_onaangeraakt
  intro item hitem
  rw [List.mem_flatMap] at hitem
  obtain ⟨o, ho, hitem⟩ := hitem
  rw [vind_alternatieve_origineel omg o item hitem]
  exact fun he => h (he ▸ ho)

/-- A key that is missing in no batch of a run is left untouched by the
whole run. -/
theorem voer_batches_uit_mapping_onaangeraakt (omg : Omgeving)
    (gz : List (String × Geometrie)) (idx : List (Nat × Doos)) :
    ∀ (bs : List (List Rij)) (mapping : String → Option String) (k : String),
      (∀ b ∈ bs, k ∉ ontbrekende_ids omg b) →
      (voer_batches_uit omg gz idx mapping bs).1 k = mapping k := by
  intro bs
  induction bs with
  | nil => intro mapping k _; rfl
  | cons b rest ih =>
    intro mapping k h
    show (voer_batches_uit omg gz idx
        (voer_batch_uit omg gz idx mapping b).1 rest).1 k = mapping k
    rw [ih _ k (fun b' hb' => h b' (List.mem_cons_of_mem _ hb'))]
    exact voer_batch_uit_mapping omg gz idx mapping b k
      (h b (List.mem_cons_self _ _))

/-- Main invariant behind claim C4: with globally unique input ids, the id
of a row that its own batch's parcel-geometry query found is never written
to the process-wide mapping during the whole run. -/
theorem voer_batches_uit_gevonden (omg : Omgeving)
    (gz : List (String × Geometrie)) (idx : List (Nat × Doos)) :
    ∀ (bs : List (List Rij)) (mapping : String → Option String),
      ((bs.map (fun b => b.map Rij.verblijfsobject_id)).flatten).Nodup →
      ∀ e ∈ (voer_batches_uit omg gz idx mapping bs).2,
        ∀ r ∈ e.batch,
          r.verblijfsobject_id
              ∈ gevonden_ids omg (e.batch.map Rij.verblijfsobject_id) →
          (voer_batches_uit omg gz idx mapping bs).1 r.verblijfsobject_id
            = mapping r.verblijfsobject_id := by
  intro bs
  induction bs with
  | nil => intro mapping _ e he; cases he
  | cons b rest ih =>
    intro mapping hnd e he r hr hgev
    rw [List.map_cons, List.flatten_cons, List.nodup_append] at hnd
    obtain ⟨hnb, hnrest, hdisj⟩ := hnd
    have hsplit : (voer_batches_uit omg gz idx mapping (b :: rest)).2
        = (voer_batch_uit omg gz idx mapping b).2
          :: (voer_batches_uit omg gz idx
              (voer_batch_uit omg gz idx mapping b).1 rest).2 := rfl
    rw [hsplit] at he
    show (voer_batches_uit omg gz idx
        (voer_batch_uit omg gz idx mapping b).1 rest).1 r.verblijfsobject_id
      = mapping r.verblijfsobject_id
    cases he with
    | head =>
      have hbid : r.verblijfsobject_id ∈ b.map Rij.verblijfsobject_id :=
        List.mem_map_of_mem _ hr
      have hniet : r.verblijfsobject_id ∉ ontbrekende_ids omg b := by
        intro hmem
        exact (ontbrekende_ids_lid omg b _ hmem).2 hgev
      rw [voer_batches_uit_mapping_onaangeraakt omg gz idx rest _ _ ?_]
      · exact voer_batch_uit_mapping omg gz idx mapping b _ hniet
      · intro b' hb' hmem
        refine hdisj hbid ?_
        rw [List.mem_flatten]
        exact ⟨b'.map Rij.verblijfsobject_id, List.mem_map_of_mem _ hb',
          (ontbrekende_ids_lid omg b' _ hmem).1⟩
    | tail _ hetail =>
      rw [ih _ hnrest e hetail r hr hgev]
      have hin : r.verblijfsobject_id
          ∈ (rest.map (fun b' => b'.map Rij.verblijfsobject_id)).flatten := by
        have hbs : e.batch ∈ rest := by
          have hb := voer_batches_uit_batches omg gz idx rest
            (voer_batch_uit omg gz idx mapping b).1
          rw [← hb]
          exact List.mem_map_of_mem _ hetail
        rw [List.mem_flatten]
        exact ⟨e.batch.map Rij.verblijfsobject_id, List.mem_map_of_mem _ hbs,
          List.mem_map_of_mem _ hr⟩
      have hnietb : r.verblijfsobject_id ∉ ontbrekende_ids omg b := by
        intro hmem
        exact hdisj (ontbrekende_ids_lid omg b _ hmem).1 hin
      exact voer_batch_uit_mapping omg gz idx mapping b _ hnietb

/-- Claim C4: assuming every input row's id is unique, a row whose original
id was present in its batch's parcel-geometry result gets an empty
`fallback_bag_verblijfsobject_id`; and whenever the field is non-empty the
row's id was aliased and the field equals the recorded alias. -/
theorem c4_fallback_veld (omg : Omgeving)
    (gezichten : List (String × Geometrie)) (rijen : List Rij)
    (hnodup : (rijen.map Rij.verblijfsobject_id).Nodup) :
    ∀ e ∈ (voer_queries_uit omg gezichten rijen).2,
      ∀ r ∈ e.batch,
        (r.verblijfsobject_id
            ∈ gevonden_ids omg (e.batch.map Rij.verblijfsobject_id) →
          (verwerk_rij (voer_queries_uit omg gezichten rijen).1 e
              r).fallback_bag_verblijfsobject_id = "")
        ∧ ((verwerk_rij (voer_queries_uit omg gezichten rijen).1 e
              r).fallback_bag_verblijfsobject_id ≠ "" →
          (voer_queries_uit omg gezichten rijen).1 r.verblijfsobject_id
            = some ((verwerk_rij (voer_queries_uit omg gezichten rijen).1 e
                r).fallback_bag_verblijfsobject_id)) := by
  intro e he r hr
  constructor
  · intro hgev
    have hnd : (((maak_batches QUERY_BATCH_GROOTTE rijen).map
        (fun b => b.map Rij.verblijfsobject_id)).flatten).Nodup := by
      rw [← List.map_flatten, maak_batches_flatten]
      exact hnodup
    have hm : (voer_queries_uit omg gezichten rijen).1 r.verblijfsobject_id
        = none :=
      voer_batches_uit_gevonden omg gezichten (maak_index gezichten)
        (maak_batches QUERY_BATCH_GROOTTE rijen) (fun _ => none) hnd e he r hr
        hgev
    rw [verwerk_rij_fallback, hm]
    simp
  · intro hne
    cases hm : (voer_queries_uit omg gezichten rijen).1 r.verblijfsobject_id with
    | none =>
      exfalso
      apply hne
      rw [verwerk_rij_fallback, hm]
      simp
    | some vervanger =>
      by_cases ha : vervanger = r.verblijfsobject_id
      · exfalso
        apply hne
        rw [verwerk_rij_fallback, hm, ha]
        simp
      · rw [verwerk_rij_fallback, hm]
        simp only [Option.getD_some, ne_eq, ha, not_false_iff, if_true]

/-- Witness for claim C4: in the mocked world where every id is found, the
first row's fallback field is empty. -/
theorem c4_fallback_veld_witness :
    (verwerk_rij (voer_queries_uit omgeving_getuige [] rijen_getuige).1
        entry_getuige
        ⟨"0599010000000001", []⟩).fallback_bag_verblijfsobject_id = "" := by
  refine (c4_fallback_veld omgeving_getuige [] rijen_getuige (by decide)
    entry_getuige ?_ ⟨"0599010000000001", []⟩ ?_).1 ?_
  · exact List.Mem.head _
  · exact List.Mem.head _
  · decide
